import Mathlib

/-!
Verification of the SEP-10 client helpers (`src/helpers/sep10.ts`) of
stellar-anchor-tests: the challenge-retrieval (`getChallenge`) and
challenge-submission (`postChallenge`) pipeline, together with the two
failure catalogs (`getChallengeFailureModes`, `postChallengeFailureModes`).

The embedding is a shallow one.  JavaScript runtime values that the code
inspects dynamically (the `tomlObj : any` parameter, JSON response bodies,
JWT payloads) are modelled by `JSValue`; external collaborators (the HTTP
fetch, the stellar-sdk transaction codec, the jsonwebtoken decoder, the
jsonschema validator, `Keypair.fromPublicKey`) are modelled by an
environment record `Sep10Env` of oracles, one per collaborator call site.
The mutable `Result` accumulator is threaded explicitly; every mutation of
it performed by the source (a `networkCalls.push`, a `result.failure =`
assignment) is additionally recorded in an event trace so that claims
about "assigned at most once" and "no push after a failure" are statements
about the run, not merely about the final state.  An exception escaping a
function (the source's uncaught `await response.json()`) is modelled by
the `Outcome.thrown` constructor.
-/

namespace Sep10

/-- A JavaScript runtime value, as far as `sep10.ts` inspects one:
`undefined`, `null`, booleans, numbers, strings and objects
(string-keyed field lists). -/
inductive JSValue : Type where
  | undefined : JSValue
  | null : JSValue
  | bool : Bool → JSValue
  | num : Int → JSValue
  | str : String → JSValue
  | obj : List (String × JSValue) → JSValue

/-- JavaScript truthiness: `undefined`, `null`, `false`, `0` and `""` are
falsy, everything else (objects included) is truthy. -/
def truthy : JSValue → Bool
  | .undefined => false
  | .null => false
  | .bool b => b
  | .num n => n != 0
  | .str s => s != ""
  | .obj _ => true

/-- The value of field access `v.k` when the access does not throw:
the property value when `v` is an object with the key, `undefined` when
the key is missing or `v` is a non-object primitive (JavaScript boxes
booleans, numbers and strings, so member access on them yields
`undefined`).  Access on `null` or `undefined` throws instead — that
case is modelled by `jsAccessThrows` at the two access sites whose base
can be `null` (sep10.ts lines 172 and 261); everywhere else the source
accesses members only of values already checked to be truthy
(`tomlObj`) or to be objects (`jwtContents`). -/
def jsGet : JSValue → String → JSValue
  | .obj fields, k =>
    match fields.lookup k with
    | some v => v
    | none => .undefined
  | _, _ => .undefined

/-- Whether JavaScript member access `v.k` throws a TypeError: it does
exactly when the base is `null` or `undefined`. -/
def jsAccessThrows : JSValue → Bool
  | .null => true
  | .undefined => true
  | _ => false

/-- JavaScript string coercion, used where the source concatenates a
dynamic value into a string (the GET URL, failure-message arguments). -/
def jsToString : JSValue → String
  | .undefined => "undefined"
  | .null => "null"
  | .bool b => if b then "true" else "false"
  | .num n => toString n
  | .str s => s
  | .obj _ => "[object Object]"

/-- The argument bag handed to a failure's rendering function
(`text(args)`); the source accesses the named properties
`url`, `transaction`, `networkPassphrase`, `error` and `errors` on it. -/
structure FailureArgs : Type where
  url : Option String := none
  transaction : Option String := none
  networkPassphrase : Option String := none
  error : Option String := none
  errors : Option String := none
deriving DecidableEq

/-- A failure definition from one of the two catalogs: a machine-stable
`name` and a rendering function `text` over an argument bag
(`src/types`: `Failure`). -/
structure Failure : Type where
  name : String
  text : FailureArgs → String

/-- Renders an optional string the way a JavaScript template literal
renders the property of an empty argument object: `undefined` when
absent. -/
def renderArg : Option String → String
  | some s => s
  | none => "undefined"

/-- `getChallengeFailureModes.NO_TOML` (sep10.ts line 18). -/
def NO_TOML : Failure :=
  { name := "no TOML file"
    text := fun _ => "Unable to fetch TOML" }

/-- `getChallengeFailureModes.NO_WEB_AUTH_ENDPOINT` (sep10.ts line 24). -/
def NO_WEB_AUTH_ENDPOINT : Failure :=
  { name := "no WEB_AUTH_ENDPOINT"
    text := fun _ => "No WEB_AUTH_ENDPOINT in TOML file" }

/-- `getChallengeFailureModes.CONNECTION_ERROR` (sep10.ts line 30). -/
def CONNECTION_ERROR : Failure :=
  { name := "connection error"
    text := fun args =>
      "A connection failure occured when making a request to: " ++
      "\n\n" ++ renderArg args.url ++ "\n\n" ++
      "Make sure that CORS is enabled." }

/-- `getChallengeFailureModes.UNEXPECTED_STATUS_CODE` (sep10.ts line 40). -/
def UNEXPECTED_STATUS_CODE : Failure :=
  { name := "unexpected status code"
    text := fun _ => "200 Success is expected for valid requests" }

/-- `getChallengeFailureModes.BAD_CONTENT_TYPE` (sep10.ts line 46). -/
def BAD_CONTENT_TYPE : Failure :=
  { name := "bad content type"
    text := fun _ =>
      "Content-Type headers for responses must be 'application/json'" }

/-- `getChallengeFailureModes.NO_TRANSACTION` (sep10.ts line 52). -/
def NO_TRANSACTION : Failure :=
  { name := "missing 'transaction' field"
    text := fun _ =>
      "GET /auth response bodies must include a 'transaction' attribute containing a challenge transaction." ++
      "See here for more information:\n\n" ++
      "https://github.com/stellar/stellar-protocol/blob/master/ecosystem/sep-0010.md#response" }

/-- `getChallengeFailureModes.DESERIALIZATION_FAILED` (sep10.ts line 62). -/
def DESERIALIZATION_FAILED : Failure :=
  { name := "transaction deserialization failed"
    text := fun args =>
      "Unable to decode the 'transaction' value:\n\n. " ++
      renderArg args.transaction ++ "\n\n" ++
      "With network passphrase: " ++ renderArg args.networkPassphrase ++ "\n\n" ++
      "'transaction' must be a base64-encoded string of the Stellar transaction XDR." }

/-- `getChallengeFailureModes.INVALID_TRANSACTION_TYPE` (sep10.ts line 73). -/
def INVALID_TRANSACTION_TYPE : Failure :=
  { name := "invalid transaction type"
    text := fun _ => "FeeBumpTransactions are not valid challenge transactions" }

/-- `getChallengeFailureModes.NONZERO_SEQUENCE_NUMBER` (sep10.ts line 79). -/
def NONZERO_SEQUENCE_NUMBER : Failure :=
  { name := "non-zero sequence number"
    text := fun _ =>
      "Challenge transaction must have a sequence number of 0. See the documentation:\n\n" ++
      "https://github.com/stellar/stellar-protocol/blob/master/ecosystem/sep-0010.md#response" }

/-- `postChallengeFailureModes.NO_TOKEN` (sep10.ts line 91). -/
def NO_TOKEN : Failure :=
  { name := "no token"
    text := fun _ =>
      "A 'token' attribute must be present in responses to valid POST /auth requests" }

/-- `postChallengeFailureModes.JWT_DECODE_FAILURE` (sep10.ts line 97). -/
def JWT_DECODE_FAILURE : Failure :=
  { name := "JWT decode failure"
    text := fun args =>
      "Unable to decode the JWT.\n\n" ++
      "The jsonwebtoken library returned: " ++ renderArg args.error }

/-- `postChallengeFailureModes.JWT_NOT_JSON` (sep10.ts line 106). -/
def JWT_NOT_JSON : Failure :=
  { name := "JWT contents is not JSON"
    text := fun _ =>
      "jsonwebtoken was unable to parse the JWT's contents as JSON" }

/-- `postChallengeFailureModes.INVALID_JWT_SCHEMA` (sep10.ts line 112). -/
def INVALID_JWT_SCHEMA : Failure :=
  { name := "invalid JWT content schema"
    text := fun args => renderArg args.errors }

/-- `postChallengeFailureModes.INVALID_JWT_SUB` (sep10.ts line 118). -/
def INVALID_JWT_SUB : Failure :=
  { name := "invalid jwt 'sub' attribute"
    text := fun _ =>
      "The 'sub' attribute must be the public key of the account " ++
      "authenticating via SEP-10 - the client's public key." }

/-- `getChallengeFailureModes` (sep10.ts lines 17–88): the GET-phase
failure catalog, a string-keyed record of `Failure` values, modelled as
an association list in the source's key order. -/
def getChallengeFailureModes : List (String × Failure) :=
  [ ("NO_TOML", NO_TOML),
    ("NO_WEB_AUTH_ENDPOINT", NO_WEB_AUTH_ENDPOINT),
    ("CONNECTION_ERROR", CONNECTION_ERROR),
    ("UNEXPECTED_STATUS_CODE", UNEXPECTED_STATUS_CODE),
    ("BAD_CONTENT_TYPE", BAD_CONTENT_TYPE),
    ("NO_TRANSACTION", NO_TRANSACTION),
    ("DESERIALIZATION_FAILED", DESERIALIZATION_FAILED),
    ("INVALID_TRANSACTION_TYPE", INVALID_TRANSACTION_TYPE),
    ("NONZERO_SEQUENCE_NUMBER", NONZERO_SEQUENCE_NUMBER) ]

/-- `postChallengeFailureModes` (sep10.ts lines 90–128): the POST-phase
catalog lists its five own entries and then spreads
`...getChallengeFailureModes`; a JavaScript object spread copies the
property values — the object references — so the GET-phase entries of
this catalog are the very same `Failure` instances as in
`getChallengeFailureModes`, which the model mirrors by appending the
same list. -/
def postChallengeFailureModes : List (String × Failure) :=
  [ ("NO_TOKEN", NO_TOKEN),
    ("JWT_DECODE_FAILURE", JWT_DECODE_FAILURE),
    ("JWT_NOT_JSON", JWT_NOT_JSON),
    ("INVALID_JWT_SCHEMA", INVALID_JWT_SCHEMA),
    ("INVALID_JWT_SUB", INVALID_JWT_SUB) ]
  ++ getChallengeFailureModes

/-- Property access on a catalog (`getChallengeFailureModes.NO_TOML` in
the source): first entry with the given key. -/
def lookupMode (catalog : List (String × Failure)) (key : String) : Option Failure :=
  match catalog with
  | [] => none
  | (k, f) :: rest => if k = key then some f else lookupMode rest key

/-- Modelled from the spec: `makeFailure` (from `src/helpers/failure.ts`,
which is not part of the provided sources) "pairs a Failure definition
with the concrete argument mapping used at the failure site, producing
the final rendered message"; the materialized failure keeps the failure's
`name` and carries the rendered message. -/
structure MaterializedFailure : Type where
  name : String
  message : String
deriving DecidableEq

/-- Modelled from the spec: materializing a failure renders its `text`
over the argument mapping supplied at the failure site. -/
def makeFailure (f : Failure) (args : FailureArgs := {}) : MaterializedFailure :=
  { name := f.name, message := f.text args }

/-- The body of a POST request, in one of the two encodings of
`postChallenge` (sep10.ts lines 216–228): a JSON object or a URL-encoded
form, each with the single field `transaction`. -/
inductive ReqBody : Type where
  | jsonBody : String → ReqBody
  | formBody : String → ReqBody
deriving DecidableEq

/-- An HTTP request as recorded in a `NetworkCall` (`new Request(...)`):
URL, method, optional body and optional Content-Type request header. -/
structure RequestModel : Type where
  url : String
  method : String := "GET"
  body : Option ReqBody := none
  contentType : Option String := none
deriving DecidableEq

/-- An HTTP response as the code observes one: `status`, the
`Content-Type` header (`headers.get` yields the string or `null`), and
the outcome of `await response.json()` — `none` when the body is not
valid JSON, in which case `json()` rejects and the (uncaught) `await`
throws. -/
structure HttpResponse : Type where
  status : Int
  contentType : Option String
  jsonBody : Option JSValue

/-- `NetworkCall` (src/types): one request/response pair; the response is
attached after the entry has been pushed, and stays absent when the fetch
itself fails. -/
structure NetworkCall : Type where
  request : RequestModel
  response : Option HttpResponse := none

/-- `Result` (src/types), as far as sep10.ts mutates it: the append-only
`networkCalls` list, the optional `failure` and the `expected`/`actual`
diagnostic fields (which receive a number for status mismatches and a
string for content-type mismatches). -/
structure Result : Type where
  networkCalls : List NetworkCall := []
  failure : Option MaterializedFailure := none
  expected : Option JSValue := none
  actual : Option JSValue := none

/-- One observable mutation of the shared `Result`: a
`result.networkCalls.push(...)` or a `result.failure = makeFailure(...)`
assignment. -/
inductive Event : Type where
  | push : Event
  | setFail : Event
deriving DecidableEq

/-- The execution state threaded through a run: the `Result` accumulator
plus the chronological trace of its mutations. -/
structure ExecState : Type where
  result : Result
  trace : List Event := []

/-- `result.networkCalls.push(call)`. -/
def pushCall (st : ExecState) (req : RequestModel) : ExecState :=
  { st with
    result := { st.result with
      networkCalls := st.result.networkCalls ++ [{ request := req }] }
    trace := st.trace ++ [.push] }

/-- Replaces the last recorded call's response: `call.response = resp`
mutates the entry that was just pushed. -/
def attachLast : List NetworkCall → HttpResponse → List NetworkCall
  | [], _ => []
  | [c], r => [{ c with response := some r }]
  | c :: c' :: cs, r => c :: attachLast (c' :: cs) r

/-- `getAuthCall.response = await fetch(...)` on the last pushed entry. -/
def attachResponse (st : ExecState) (resp : HttpResponse) : ExecState :=
  { st with result := { st.result with
      networkCalls := attachLast st.result.networkCalls resp } }

/-- `result.failure = makeFailure(...)`. -/
def setFailure (st : ExecState) (f : MaterializedFailure) : ExecState :=
  { st with
    result := { st.result with failure := some f }
    trace := st.trace ++ [.setFail] }

/-- `result.expected = v`. -/
def setExpected (st : ExecState) (v : JSValue) : ExecState :=
  { st with result := { st.result with expected := some v } }

/-- `result.actual = v`. -/
def setActual (st : ExecState) (v : JSValue) : ExecState :=
  { st with result := { st.result with actual := some v } }

/-- An ordinary (non-fee-bump) stellar-sdk `Transaction`, as far as the
code inspects it: the `sequence` string; `rest` stands for the remaining
transaction content, so that distinct transactions with equal sequence
numbers exist in the model. -/
structure Transaction : Type where
  sequence : String
  rest : String := ""
deriving DecidableEq

/-- The result of `TransactionBuilder.fromXDR`: an ordinary `Transaction`
or a `FeeBumpTransaction`. -/
inductive DecodedTx : Type where
  | ordinary : Transaction → DecodedTx
  | feeBump : DecodedTx
deriving DecidableEq

/-- `Keypair`, as far as the code uses the client's keypair: its public
key string (`publicKey()`); `sign` is a trusted collaborator whose effect
is captured by the environment's `signedXDR` oracle. -/
structure KeypairModel : Type where
  publicKey : String
deriving DecidableEq

/-- The external collaborators of one run, one oracle per call site:
the two `fetch` calls (throwing on transport failure), the transaction
codec (`TransactionBuilder.fromXDR`, applied to the `transaction` field
value and the `NETWORK_PASSPHRASE` value), `challenge.toXDR()` after
`challenge.sign(clientKeypair)`, the jsonwebtoken `decode` (throwing with
an error message), the jsonschema `validate` (a list of error strings),
and `Keypair.fromPublicKey` (`true` when the parse succeeds). -/
structure Sep10Env : Type where
  getFetch : Except Unit HttpResponse
  postFetch : Except Unit HttpResponse
  fromXDR : JSValue → JSValue → Except Unit DecodedTx
  signedXDR : Transaction → String
  jwtDecode : JSValue → Except String JSValue
  validateErrors : JSValue → List String
  validPublicKey : JSValue → Bool

/-- The way an `async` function in the source terminates: a normal return
(of a value, or of `undefined` after an early `return;`), or an exception
propagating out of the function. -/
inductive Outcome (α : Type) : Type where
  | ret : Option α → Outcome α
  | thrown : Outcome α
deriving DecidableEq

/-- `typeof v === "object"` for the values jsonwebtoken's `decode` can
yield (`null` is of type "object" as well, but the code checks truthiness
first). -/
def jsTypeofObject : JSValue → Bool
  | .obj _ => true
  | .null => true
  | _ => false

/-- `getChallenge` (sep10.ts lines 130–204), translated branch for
branch: validates the TOML object and its `WEB_AUTH_ENDPOINT`, records
and issues the GET challenge request, validates transport / status /
content type / body, decodes the challenge and checks its type and
sequence number; each violated check materializes its catalog failure
and returns early.  Two uncaught exceptions can escape: the rejection of
`await response.json()` on a body that is not valid JSON, and the
TypeError of `responseBody.transaction` (line 172) when the body parses
to JSON null. -/
def getChallenge (clientKeypair : KeypairModel) (tomlObj : JSValue)
    (env : Sep10Env) (st : ExecState) : ExecState × Outcome Transaction :=
  if !(truthy tomlObj) then
    (setFailure st (makeFailure NO_TOML), .ret none)
  else if !(truthy (jsGet tomlObj "WEB_AUTH_ENDPOINT")) then
    (setFailure st (makeFailure NO_WEB_AUTH_ENDPOINT), .ret none)
  else
    let url := jsToString (jsGet tomlObj "WEB_AUTH_ENDPOINT") ++
      "?account=" ++ clientKeypair.publicKey
    let st := pushCall st { url := url }
    match env.getFetch with
    | .error _ =>
      (setFailure st (makeFailure CONNECTION_ERROR { url := some url }), .ret none)
    | .ok resp =>
      let st := attachResponse st resp
      if resp.status ≠ 200 then
        let st := setFailure st (makeFailure UNEXPECTED_STATUS_CODE)
        let st := setExpected st (.num 200)
        let st := setActual st (.num resp.status)
        (st, .ret none)
      else if resp.contentType ≠ some "application/json" then
        let st := setFailure st (makeFailure BAD_CONTENT_TYPE)
        let st := setExpected st (.str "application/json")
        let st :=
          match resp.contentType with
          | some ct => if ct ≠ "" then setActual st (.str ct) else st
          | none => st
        (st, .ret none)
      else
        match resp.jsonBody with
        | none => (st, .thrown)
        | some responseBody =>
          if jsAccessThrows responseBody then (st, .thrown)
          else if !(truthy (jsGet responseBody "transaction")) then
            (setFailure st (makeFailure NO_TRANSACTION), .ret none)
          else
            match env.fromXDR (jsGet responseBody "transaction")
                (jsGet tomlObj "NETWORK_PASSPHRASE") with
            | .error _ =>
              (setFailure st (makeFailure DESERIALIZATION_FAILED
                { transaction := some (jsToString (jsGet responseBody "transaction"))
                  networkPassphrase :=
                    some (jsToString (jsGet tomlObj "NETWORK_PASSPHRASE")) }),
               .ret none)
            | .ok .feeBump =>
              (setFailure st (makeFailure INVALID_TRANSACTION_TYPE), .ret none)
            | .ok (.ordinary challenge) =>
              if challenge.sequence ≠ "0" then
                (setFailure st (makeFailure NONZERO_SEQUENCE_NUMBER), .ret none)
              else
                (st, .ret (some challenge))

/-- `postChallenge` (sep10.ts lines 206–292), translated branch for
branch: runs `getChallenge`, propagates its void return (and its
exception), signs and re-encodes the challenge, records and issues the
POST request in the chosen encoding, validates transport / status /
content type, requires a truthy `token` field, decodes the JWT, checks
it is an object, validates it against the schema, and parses its `sub`
as a public key; success returns the raw `token` value.  As in the GET
phase, `await response.json()` on a non-JSON body and
`responseBody.token` (line 261) on a JSON-null body throw uncaught. -/
def postChallenge (clientKeypair : KeypairModel) (tomlObj : JSValue)
    (env : Sep10Env) (useJson : Bool) (st : ExecState) :
    ExecState × Outcome JSValue :=
  match getChallenge clientKeypair tomlObj env st with
  | (st, .thrown) => (st, .thrown)
  | (st, .ret none) => (st, .ret none)
  | (st, .ret (some challenge)) =>
    let xdr := env.signedXDR challenge
    let request : RequestModel :=
      if useJson then
        { url := jsToString (jsGet tomlObj "WEB_AUTH_ENDPOINT")
          method := "POST"
          body := some (.jsonBody xdr)
          contentType := some "application/json" }
      else
        { url := jsToString (jsGet tomlObj "WEB_AUTH_ENDPOINT")
          method := "POST"
          body := some (.formBody xdr)
          contentType := some "application/x-www-form-urlencoded" }
    let st := pushCall st request
    match env.postFetch with
    | .error _ =>
      (setFailure st (makeFailure CONNECTION_ERROR { url := some request.url }), .ret none)
    | .ok resp =>
      let st := attachResponse st resp
      if resp.status ≠ 200 then
        let st := setFailure st (makeFailure UNEXPECTED_STATUS_CODE)
        let st := setExpected st (.num 200)
        let st := setActual st (.num resp.status)
        (st, .ret none)
      else if resp.contentType ≠ some "application/json" then
        let st := setFailure st (makeFailure BAD_CONTENT_TYPE)
        let st := setExpected st (.str "application/json")
        let st :=
          match resp.contentType with
          | some ct => if ct ≠ "" then setActual st (.str ct) else st
          | none => st
        (st, .ret none)
      else
        match resp.jsonBody with
        | none => (st, .thrown)
        | some responseBody =>
          if jsAccessThrows responseBody then (st, .thrown)
          else if !(truthy (jsGet responseBody "token")) then
            (setFailure st (makeFailure NO_TOKEN), .ret none)
          else
            match env.jwtDecode (jsGet responseBody "token") with
            | .error e =>
              (setFailure st (makeFailure JWT_DECODE_FAILURE { error := some e }), .ret none)
            | .ok jwtContents =>
              if !(truthy jwtContents) || !(jsTypeofObject jwtContents) then
                (setFailure st (makeFailure JWT_NOT_JSON), .ret none)
              else if (env.validateErrors jwtContents).length ≠ 0 then
                (setFailure st (makeFailure INVALID_JWT_SCHEMA
                  { errors := some (String.intercalate "\n" (env.validateErrors jwtContents)) }),
                 .ret none)
              else if !(env.validPublicKey (jsGet jwtContents "sub")) then
                (setFailure st (makeFailure INVALID_JWT_SUB), .ret none)
              else
                (st, .ret (some (jsGet responseBody "token")))

/-! Concrete fixtures used by witnesses and counterexamples: a client
keypair, a TOML object with both keys, a fully conforming pair of
responses, and an environment in which every collaborator succeeds.  The
token's `sub` is a valid public key different from the client's own. -/

/-- A sample client keypair. -/
def kpSample : KeypairModel := { publicKey := "GCLIENT" }

/-- A sample TOML object carrying both keys the code reads. -/
def okToml : JSValue :=
  .obj [("WEB_AUTH_ENDPOINT", .str "https://x/auth"),
        ("NETWORK_PASSPHRASE", .str "Test SDF Network ; September 2015")]

/-- A conforming GET /auth response. -/
def okResp : HttpResponse :=
  { status := 200, contentType := some "application/json",
    jsonBody := some (.obj [("transaction", .str "AAAAtx")]) }

/-- A conforming POST /auth response. -/
def okPostResp : HttpResponse :=
  { status := 200, contentType := some "application/json",
    jsonBody := some (.obj [("token", .str "ey.token")]) }

/-- The sample decoded JWT payload: `sub` is a well-formed public key
that differs from `kpSample.publicKey`. -/
def okJwt : JSValue :=
  .obj [("sub", .str "GSERVERSUB"), ("iat", .num 1), ("exp", .num 2)]

/-- An environment in which every external collaborator behaves
conformingly. -/
def okEnv : Sep10Env :=
  { getFetch := .ok okResp
    postFetch := .ok okPostResp
    fromXDR := fun t _ =>
      match t with
      | .str "AAAAtx" => .ok (.ordinary { sequence := "0" })
      | _ => .error ()
    signedXDR := fun _ => "AAAAsigned"
    jwtDecode := fun _ => .ok okJwt
    validateErrors := fun _ => []
    validPublicKey := fun v =>
      match v with
      | .str "GSERVERSUB" => true
      | _ => false }

/-- A fresh run state: empty `Result`, empty trace. -/
def st0 : ExecState := { result := {} }

/-- A TOML object with no `WEB_AUTH_ENDPOINT` key. -/
def tomlNoEndpoint : JSValue := .obj [("SIGNING_KEY", .str "S")]

/-- A 200 / application/json response whose body is not valid JSON, so
`response.json()` rejects. -/
def respNoJsonBody : HttpResponse :=
  { status := 200, contentType := some "application/json", jsonBody := none }

/-- A 200 / application/json response whose body is the JSON text
"null", so `response.json()` resolves to `null` and member access on the
result throws. -/
def respNullBody : HttpResponse :=
  { status := 200, contentType := some "application/json",
    jsonBody := some .null }

/-- A 404 response. -/
def resp404 : HttpResponse :=
  { status := 404, contentType := some "application/json",
    jsonBody := some (.obj []) }

/-- A 200 response without a Content-Type header. -/
def respNoCt : HttpResponse :=
  { status := 200, contentType := none, jsonBody := some (.obj []) }

/-- A 200 response with a wrong Content-Type header. -/
def respBadCt : HttpResponse :=
  { status := 200, contentType := some "text/html",
    jsonBody := some (.obj []) }

/-- A conforming GET response whose `transaction` field is the empty
string. -/
def respEmptyTx : HttpResponse :=
  { status := 200, contentType := some "application/json",
    jsonBody := some (.obj [("transaction", .str "")]) }

/-- A conforming POST response whose `token` field is the empty string. -/
def respEmptyToken : HttpResponse :=
  { status := 200, contentType := some "application/json",
    jsonBody := some (.obj [("token", .str "")]) }

/-- `okEnv` with a replaced GET fetch outcome. -/
def withGetFetch (e : Sep10Env) (r : Except Unit HttpResponse) : Sep10Env :=
  { e with getFetch := r }

/-- `okEnv` with a replaced POST fetch outcome. -/
def withPostFetch (e : Sep10Env) (r : Except Unit HttpResponse) : Sep10Env :=
  { e with postFetch := r }

/-- `okEnv`, but the decoded challenge has sequence "1". -/
def envSeq1 : Sep10Env :=
  { okEnv with fromXDR := fun t _ =>
      match t with
      | .str "AAAAtx" => .ok (.ordinary { sequence := "1" })
      | _ => .error () }

/-- `okEnv`, but `Keypair.fromPublicKey` rejects every `sub`. -/
def envSubBad : Sep10Env :=
  { okEnv with validPublicKey := fun _ => false }

/-- Written from the spec's words (§4.1): the first violated condition of
the GET-challenge phase, in the spec's listed order — absent metadata,
absent/empty `WEB_AUTH_ENDPOINT`, transport failure, status ≠ 200, bad
content type, missing `transaction`, decode failure, fee-bump type,
non-zero sequence — each identified by its failure's name; `none` when no
condition is violated (the body-not-JSON case, where the code throws
instead of failing, is also `none` here and excluded by hypothesis in the
refinement theorem). -/
def specFirstFailureName (tomlObj : JSValue) (env : Sep10Env) : Option String :=
  if !(truthy tomlObj) then some "no TOML file"
  else if !(truthy (jsGet tomlObj "WEB_AUTH_ENDPOINT")) then some "no WEB_AUTH_ENDPOINT"
  else
    match env.getFetch with
    | .error _ => some "connection error"
    | .ok resp =>
      if resp.status ≠ 200 then some "unexpected status code"
      else if resp.contentType ≠ some "application/json" then some "bad content type"
      else
        match resp.jsonBody with
        | none => none
        | some body =>
          if !(truthy (jsGet body "transaction")) then some "missing 'transaction' field"
          else
            match env.fromXDR (jsGet body "transaction")
                (jsGet tomlObj "NETWORK_PASSPHRASE") with
            | .error _ => some "transaction deserialization failed"
            | .ok .feeBump => some "invalid transaction type"
            | .ok (.ordinary tx) =>
              if tx.sequence ≠ "0" then some "non-zero sequence number" else none

/-- A well-formed mutation trace: any number of `push` events, then at
most one trailing `setFail` — so the failure is assigned at most once
and nothing is pushed after it. -/
def traceOk : List Event → Bool
  | [] => true
  | .push :: rest => traceOk rest
  | [.setFail] => true
  | .setFail :: _ :: _ => false

/-! Frame lemmas for the four `Result` mutators and the trace, used
throughout the proofs. -/

@[simp] theorem pushCall_failure (st : ExecState) (r : RequestModel) :
    (pushCall st r).result.failure = st.result.failure := rfl

@[simp] theorem pushCall_expected (st : ExecState) (r : RequestModel) :
    (pushCall st r).result.expected = st.result.expected := rfl

@[simp] theorem pushCall_actual (st : ExecState) (r : RequestModel) :
    (pushCall st r).result.actual = st.result.actual := rfl

@[simp] theorem pushCall_calls (st : ExecState) (r : RequestModel) :
    (pushCall st r).result.networkCalls =
      st.result.networkCalls ++ [{ request := r }] := rfl

@[simp] theorem pushCall_trace (st : ExecState) (r : RequestModel) :
    (pushCall st r).trace = st.trace ++ [.push] := rfl

@[simp] theorem attachResponse_failure (st : ExecState) (r : HttpResponse) :
    (attachResponse st r).result.failure = st.result.failure := rfl

@[simp] theorem attachResponse_expected (st : ExecState) (r : HttpResponse) :
    (attachResponse st r).result.expected = st.result.expected := rfl

@[simp] theorem attachResponse_actual (st : ExecState) (r : HttpResponse) :
    (attachResponse st r).result.actual = st.result.actual := rfl

@[simp] theorem attachResponse_trace (st : ExecState) (r : HttpResponse) :
    (attachResponse st r).trace = st.trace := rfl

@[simp] theorem attachResponse_calls (st : ExecState) (r : HttpResponse) :
    (attachResponse st r).result.networkCalls =
      attachLast st.result.networkCalls r := rfl

@[simp] theorem setFailure_failure (st : ExecState) (f : MaterializedFailure) :
    (setFailure st f).result.failure = some f := rfl

@[simp] theorem setFailure_expected (st : ExecState) (f : MaterializedFailure) :
    (setFailure st f).result.expected = st.result.expected := rfl

@[simp] theorem setFailure_actual (st : ExecState) (f : MaterializedFailure) :
    (setFailure st f).result.actual = st.result.actual := rfl

@[simp] theorem setFailure_calls (st : ExecState) (f : MaterializedFailure) :
    (setFailure st f).result.networkCalls = st.result.networkCalls := rfl

@[simp] theorem setFailure_trace (st : ExecState) (f : MaterializedFailure) :
    (setFailure st f).trace = st.trace ++ [.setFail] := rfl

@[simp] theorem setExpected_failure (st : ExecState) (v : JSValue) :
    (setExpected st v).result.failure = st.result.failure := rfl

@[simp] theorem setExpected_expected (st : ExecState) (v : JSValue) :
    (setExpected st v).result.expected = some v := rfl

@[simp] theorem setExpected_actual (st : ExecState) (v : JSValue) :
    (setExpected st v).result.actual = st.result.actual := rfl

@[simp] theorem setExpected_calls (st : ExecState) (v : JSValue) :
    (setExpected st v).result.networkCalls = st.result.networkCalls := rfl

@[simp] theorem setExpected_trace (st : ExecState) (v : JSValue) :
    (setExpected st v).trace = st.trace := rfl

@[simp] theorem setActual_failure (st : ExecState) (v : JSValue) :
    (setActual st v).result.failure = st.result.failure := rfl

@[simp] theorem setActual_expected (st : ExecState) (v : JSValue) :
    (setActual st v).result.expected = st.result.expected := rfl

@[simp] theorem setActual_actual (st : ExecState) (v : JSValue) :
    (setActual st v).result.actual = some v := rfl

@[simp] theorem setActual_calls (st : ExecState) (v : JSValue) :
    (setActual st v).result.networkCalls = st.result.networkCalls := rfl

@[simp] theorem setActual_trace (st : ExecState) (v : JSValue) :
    (setActual st v).trace = st.trace := rfl

/-- Truthiness of a string value is its non-emptiness. -/
theorem truthy_str (s : String) : truthy (.str s) = (s != "") := rfl

/-- `undefined` is falsy. -/
theorem truthy_undefined : truthy .undefined = false := rfl

/-- A truthy member value forces the base to be an object, on which
member access cannot throw. -/
theorem jsAccessThrows_of_truthy_get (v : JSValue) (k : String)
    (h : truthy (jsGet v k) = true) : jsAccessThrows v = false := by
  cases v <;> simp_all [jsGet, truthy, jsAccessThrows]

/-- Attaching a response to the last call of a non-empty list rewrites
exactly that last entry. -/
theorem attachLast_append (xs : List NetworkCall) (c : NetworkCall)
    (r : HttpResponse) :
    attachLast (xs ++ [c]) r = xs ++ [{ c with response := some r }] := by
  induction xs with
  | nil => rfl
  | cons x xs ih =>
    rcases xs with _ | ⟨y, ys⟩
    · rfl
    · simpa [attachLast] using ih

/-- Two-entry variant of `attachLast_append`, matching the
right-associated list shape `simp` produces. -/
theorem attachLast_append_two (xs : List NetworkCall) (c d : NetworkCall)
    (r : HttpResponse) :
    attachLast (xs ++ [c, d]) r = xs ++ [c, { d with response := some r }] := by
  simpa using attachLast_append (xs ++ [c]) d r

/-- When `getChallenge` returns a challenge, the final state is the
initial one extended by the single answered GET call and the single
`push` event; failure and diagnostics are untouched. -/
theorem getChallenge_success_state (kp : KeypairModel) (toml : JSValue)
    (env : Sep10Env) (st : ExecState) (tx : Transaction)
    (h : (getChallenge kp toml env st).2 = .ret (some tx)) :
    ∃ resp, env.getFetch = .ok resp ∧
      (getChallenge kp toml env st).1.result.networkCalls =
        st.result.networkCalls ++
          [{ request := { url := jsToString (jsGet toml "WEB_AUTH_ENDPOINT") ++
              "?account=" ++ kp.publicKey }
             response := some resp }] ∧
      (getChallenge kp toml env st).1.result.failure = st.result.failure ∧
      (getChallenge kp toml env st).1.trace = st.trace ++ [.push] ∧
      (getChallenge kp toml env st).1.result.expected = st.result.expected ∧
      (getChallenge kp toml env st).1.result.actual = st.result.actual := by
  simp only [getChallenge] at h
  split at h
  · simp at h
  · rename_i h1
    split at h
    · simp at h
    · rename_i h2
      split at h
      · simp at h
      · rename_i resp hfetch
        split at h
        · simp at h
        · rename_i hst
          split at h
          · simp at h
          · rename_i hct
            split at h
            · simp at h
            · rename_i body hbody
              split at h
              · simp at h
              · rename_i hnothrow
                split at h
                · simp at h
                · rename_i htx
                  split at h
                  · simp at h
                  · simp at h
                  · rename_i tx' hdec
                    split at h
                    · simp at h
                    · rename_i hseq
                      simp only [Outcome.ret.injEq, Option.some.injEq] at h
                      subst h
                      refine ⟨resp, hfetch, ?_, ?_, ?_, ?_, ?_⟩ <;>
                        simp [getChallenge, h1, h2, hfetch, hst, hct, hbody,
                          hnothrow, htx, hdec, hseq, attachLast_append]

/-- Every run of `getChallenge` extends the trace by exactly one of:
a lone failure assignment, a lone push, or a push followed by a failure
assignment. -/
theorem getChallenge_trace_shape (kp : KeypairModel) (toml : JSValue)
    (env : Sep10Env) (st : ExecState) :
    (getChallenge kp toml env st).1.trace = st.trace ++ [.setFail] ∨
    (getChallenge kp toml env st).1.trace = st.trace ++ [.push] ∨
    (getChallenge kp toml env st).1.trace = st.trace ++ [.push, .setFail] := by
  simp only [getChallenge]
  split
  · simp
  · split
    · simp
    · split
      · simp
      · split
        · simp
        · split
          · split
            · split <;> simp
            · simp
          · split
            · simp
            · split
              · simp
              · split
                · simp
                · split
                  · simp
                  · simp
                  · split
                    · simp
                    · simp

/-- C8: when the service metadata is present but lacks a (truthy)
`WEB_AUTH_ENDPOINT`, `getChallenge` terminates early with the failure
named "no WEB_AUTH_ENDPOINT", appends zero entries to
`result.networkCalls`, and leaves every other field of the `Result`
unchanged. -/
theorem getChallenge_no_endpoint_frame (kp : KeypairModel) (toml : JSValue)
    (env : Sep10Env) (st : ExecState)
    (htoml : truthy toml = true)
    (hep : truthy (jsGet toml "WEB_AUTH_ENDPOINT") = false) :
    (getChallenge kp toml env st).1.result.failure =
        some (makeFailure NO_WEB_AUTH_ENDPOINT) ∧
    (makeFailure NO_WEB_AUTH_ENDPOINT).name = "no WEB_AUTH_ENDPOINT" ∧
    (getChallenge kp toml env st).1.result.networkCalls =
        st.result.networkCalls ∧
    (getChallenge kp toml env st).1.result.expected = st.result.expected ∧
    (getChallenge kp toml env st).1.result.actual = st.result.actual ∧
    (getChallenge kp toml env st).2 = .ret none := by
  simp [getChallenge, htoml, hep, makeFailure, NO_WEB_AUTH_ENDPOINT]

/-- C8 witness: the theorem applied to a concrete TOML object that lacks
`WEB_AUTH_ENDPOINT`, starting from a fresh `Result`. -/
theorem getChallenge_no_endpoint_frame_witness :
    (getChallenge kpSample tomlNoEndpoint okEnv st0).1.result.failure =
        some (makeFailure NO_WEB_AUTH_ENDPOINT) ∧
    (makeFailure NO_WEB_AUTH_ENDPOINT).name = "no WEB_AUTH_ENDPOINT" ∧
    (getChallenge kpSample tomlNoEndpoint okEnv st0).1.result.networkCalls =
        st0.result.networkCalls ∧
    (getChallenge kpSample tomlNoEndpoint okEnv st0).1.result.expected =
        st0.result.expected ∧
    (getChallenge kpSample tomlNoEndpoint okEnv st0).1.result.actual =
        st0.result.actual ∧
    (getChallenge kpSample tomlNoEndpoint okEnv st0).2 = .ret none :=
  getChallenge_no_endpoint_frame kpSample tomlNoEndpoint okEnv st0 rfl rfl

/-- C4: when the GET phase reaches a decoded ordinary challenge, the
acceptance test on its sequence field is exact string equality with "0":
sequence "0" passes (the transaction is returned, no failure recorded),
and any other sequence string produces the NONZERO_SEQUENCE_NUMBER
failure with an early return. -/
theorem getChallenge_sequence_exact_zero (kp : KeypairModel) (toml : JSValue)
    (env : Sep10Env) (st : ExecState) (resp : HttpResponse) (body : JSValue)
    (tx : Transaction)
    (htoml : truthy toml = true)
    (hep : truthy (jsGet toml "WEB_AUTH_ENDPOINT") = true)
    (hfetch : env.getFetch = .ok resp)
    (hst : resp.status = 200)
    (hct : resp.contentType = some "application/json")
    (hbody : resp.jsonBody = some body)
    (htx : truthy (jsGet body "transaction") = true)
    (hdec : env.fromXDR (jsGet body "transaction")
        (jsGet toml "NETWORK_PASSPHRASE") = .ok (.ordinary tx)) :
    (tx.sequence = "0" →
      (getChallenge kp toml env st).2 = .ret (some tx) ∧
      (getChallenge kp toml env st).1.result.failure = st.result.failure) ∧
    (tx.sequence ≠ "0" →
      (getChallenge kp toml env st).1.result.failure.map (fun f => f.name) =
        some "non-zero sequence number" ∧
      (getChallenge kp toml env st).2 = .ret none) := by
  have hnt := jsAccessThrows_of_truthy_get body "transaction" htx
  constructor <;> intro hseq <;>
    simp [getChallenge, htoml, hep, hfetch, hst, hct, hbody, hnt, htx, hdec,
      hseq, makeFailure, NONZERO_SEQUENCE_NUMBER]

/-- C4 witness: the theorem applied to a concrete conforming environment
whose challenge has sequence "0" (accepted) and to one whose challenge
has sequence "1" (rejected with the non-zero sequence failure). -/
theorem getChallenge_sequence_exact_zero_witness :
    (getChallenge kpSample okToml okEnv st0).2 =
        .ret (some { sequence := "0", rest := "" }) ∧
    (getChallenge kpSample okToml envSeq1 st0).1.result.failure.map
        (fun f => f.name) = some "non-zero sequence number" :=
  ⟨((getChallenge_sequence_exact_zero kpSample okToml okEnv st0 okResp
      (.obj [("transaction", .str "AAAAtx")]) { sequence := "0", rest := "" }
      rfl rfl rfl rfl rfl rfl rfl rfl).1 rfl).1,
   ((getChallenge_sequence_exact_zero kpSample okToml envSeq1 st0 okResp
      (.obj [("transaction", .str "AAAAtx")]) { sequence := "1", rest := "" }
      rfl rfl rfl rfl rfl rfl rfl rfl).2 (by decide)).1⟩

/-- C10: whenever `getChallenge` returns a challenge, every earlier
validation necessarily passed: the TOML object and its
`WEB_AUTH_ENDPOINT` are truthy (so `postChallenge` can build its POST
request to that endpoint), the fetch succeeded with a 200
application/json response whose body carried a truthy `transaction`, and
the decode yielded an ordinary (non-fee-bump) transaction with sequence
"0" — so the missing-endpoint and wrong-transaction-type error branches
are unreachable after a successful fetch. -/
theorem getChallenge_success_invariants (kp : KeypairModel) (toml : JSValue)
    (env : Sep10Env) (st : ExecState) (tx : Transaction)
    (h : (getChallenge kp toml env st).2 = .ret (some tx)) :
    truthy toml = true ∧
    truthy (jsGet toml "WEB_AUTH_ENDPOINT") = true ∧
    ∃ resp body, env.getFetch = .ok resp ∧ resp.status = 200 ∧
      resp.contentType = some "application/json" ∧
      resp.jsonBody = some body ∧
      truthy (jsGet body "transaction") = true ∧
      env.fromXDR (jsGet body "transaction") (jsGet toml "NETWORK_PASSPHRASE")
        = .ok (.ordinary tx) ∧
      tx.sequence = "0" := by
  simp only [getChallenge] at h
  split at h
  · simp at h
  · rename_i h1
    split at h
    · simp at h
    · rename_i h2
      split at h
      · simp at h
      · rename_i resp hfetch
        split at h
        · simp at h
        · rename_i hst
          split at h
          · simp at h
          · rename_i hct
            split at h
            · simp at h
            · rename_i body hbody
              split at h
              · simp at h
              · rename_i hnothrow
                split at h
                · simp at h
                · rename_i htx
                  split at h
                  · simp at h
                  · simp at h
                  · rename_i tx' hdec
                    split at h
                    · simp at h
                    · rename_i hseq
                      simp only [Outcome.ret.injEq, Option.some.injEq] at h
                      subst h
                      refine ⟨by simpa using h1, by simpa using h2,
                        resp, body, hfetch, by omega, by simpa using hct,
                        hbody, by simpa using htx, hdec, by simpa using hseq⟩

/-- C10 witness: the theorem applied to the concrete conforming
environment, in which `getChallenge` returns the sequence-"0"
challenge. -/
theorem getChallenge_success_invariants_witness :
    truthy okToml = true ∧
    truthy (jsGet okToml "WEB_AUTH_ENDPOINT") = true ∧
    ∃ resp body, okEnv.getFetch = .ok resp ∧ resp.status = 200 ∧
      resp.contentType = some "application/json" ∧
      resp.jsonBody = some body ∧
      truthy (jsGet body "transaction") = true ∧
      okEnv.fromXDR (jsGet body "transaction")
        (jsGet okToml "NETWORK_PASSPHRASE")
        = .ok (.ordinary { sequence := "0", rest := "" }) ∧
      ({ sequence := "0", rest := "" } : Transaction).sequence = "0" :=
  getChallenge_success_invariants kpSample okToml okEnv st0
    { sequence := "0", rest := "" } rfl

/-- C6 counterexample: the claim asserts the GET-phase entries of
`postChallengeFailureModes` are instances distinct from the
corresponding entries of `getChallengeFailureModes`; in the source the
POST catalog is built with the object spread `...getChallengeFailureModes`,
which copies the property references, so the CONNECTION_ERROR entry of
the POST catalog is the very same instance as the GET catalog's — the
two lookups are equal, not distinct. -/
theorem postCatalog_connection_error_shared :
    lookupMode postChallengeFailureModes "CONNECTION_ERROR" =
      lookupMode getChallengeFailureModes "CONNECTION_ERROR" ∧
    lookupMode getChallengeFailureModes "CONNECTION_ERROR" =
      some CONNECTION_ERROR := by
  constructor <;> rfl

/-- C6 (amended): `postChallengeFailureModes` contains every entry of
`getChallengeFailureModes` (same key, same failure) plus its five
POST-specific kinds, which are absent from the GET catalog; its
GET-phase entries are the *same* instances as the GET catalog's (the
object spread copies references), so the shared kinds are literally
identical between the two catalogs rather than independent copies. -/
theorem postCatalog_superset_shared :
    (∀ k f, lookupMode getChallengeFailureModes k = some f →
      lookupMode postChallengeFailureModes k = some f) ∧
    lookupMode postChallengeFailureModes "NO_TOKEN" = some NO_TOKEN ∧
    lookupMode postChallengeFailureModes "JWT_DECODE_FAILURE" =
      some JWT_DECODE_FAILURE ∧
    lookupMode postChallengeFailureModes "JWT_NOT_JSON" = some JWT_NOT_JSON ∧
    lookupMode postChallengeFailureModes "INVALID_JWT_SCHEMA" =
      some INVALID_JWT_SCHEMA ∧
    lookupMode postChallengeFailureModes "INVALID_JWT_SUB" =
      some INVALID_JWT_SUB ∧
    lookupMode getChallengeFailureModes "NO_TOKEN" = none ∧
    lookupMode getChallengeFailureModes "JWT_DECODE_FAILURE" = none ∧
    lookupMode getChallengeFailureModes "JWT_NOT_JSON" = none ∧
    lookupMode getChallengeFailureModes "INVALID_JWT_SCHEMA" = none ∧
    lookupMode getChallengeFailureModes "INVALID_JWT_SUB" = none := by
  refine ⟨?_, rfl, rfl, rfl, rfl, rfl, rfl, rfl, rfl, rfl, rfl⟩
  intro k f h
  simp only [getChallengeFailureModes, lookupMode] at h
  split_ifs at h with h1 h2 h3 h4 h5 h6 h7 h8 h9 <;>
    (subst_vars; injection h with h; subst h; rfl)

/-- C6 (amended) witness: the containment applied at the concrete key
"NO_TOML", whose GET-catalog lookup is discharged by computation. -/
theorem postCatalog_superset_shared_witness :
    lookupMode postChallengeFailureModes "NO_TOML" = some NO_TOML :=
  postCatalog_superset_shared.1 "NO_TOML" NO_TOML rfl

/-- C2: every run of `postChallenge` that returns a token has appended
exactly two NetworkCall entries to `result.networkCalls` — the first the
answered GET challenge request, the second the answered POST submission
to the same endpoint — and `result.failure` is unset (the result being
fresh, per the one-result-per-attempt lifecycle). -/
theorem postChallenge_success_two_calls (kp : KeypairModel) (toml : JSValue)
    (env : Sep10Env) (uj : Bool) (st : ExecState) (tok : JSValue)
    (h0 : st.result.failure = none)
    (h : (postChallenge kp toml env uj st).2 = .ret (some tok)) :
    ∃ gresp presp preq,
      (postChallenge kp toml env uj st).1.result.networkCalls =
        st.result.networkCalls ++
          [{ request := { url := jsToString (jsGet toml "WEB_AUTH_ENDPOINT") ++
               "?account=" ++ kp.publicKey }
             response := some gresp },
           { request := preq, response := some presp }] ∧
      preq.method = "POST" ∧
      preq.url = jsToString (jsGet toml "WEB_AUTH_ENDPOINT") ∧
      (postChallenge kp toml env uj st).1.result.failure = none := by
  rcases hg : getChallenge kp toml env st with ⟨st1, out⟩
  rcases out with ret | _
  rotate_left
  · simp [postChallenge, hg] at h
  rcases ret with _ | tx
  · simp [postChallenge, hg] at h
  have h2 : (getChallenge kp toml env st).2 = .ret (some tx) := by rw [hg]
  obtain ⟨gresp, hfetch, hcalls, hfail, htrace, hexp, hact⟩ :=
    getChallenge_success_state kp toml env st tx h2
  rw [hg] at hcalls hfail
  dsimp only at hcalls hfail
  simp only [postChallenge, hg] at h ⊢
  split at h
  · simp at h
  · rename_i presp hpfetch
    split at h
    · simp at h
    · rename_i hpst
      split at h
      · simp at h
      · rename_i hpct
        split at h
        · simp at h
        · rename_i pbody hpbody
          split at h
          · simp at h
          · rename_i hpnothrow
            split at h
            · simp at h
            · rename_i htok
              split at h
              · simp at h
              · rename_i jwt hjwt
                split at h
                · simp at h
                · rename_i hobj
                  split at h
                  · simp at h
                  · rename_i hschema
                    split at h
                    · simp at h
                    · rename_i hsub
                      refine ⟨gresp, presp,
                        if uj = true then
                          { url := jsToString (jsGet toml "WEB_AUTH_ENDPOINT")
                            method := "POST"
                            body := some (.jsonBody (env.signedXDR tx))
                            contentType := some "application/json" }
                        else
                          { url := jsToString (jsGet toml "WEB_AUTH_ENDPOINT")
                            method := "POST"
                            body := some (.formBody (env.signedXDR tx))
                            contentType := some "application/x-www-form-urlencoded" },
                        ?_, ?_, ?_, ?_⟩ <;>
                        cases uj <;>
                          simp [hpfetch, hpst, hpct, hpbody, hpnothrow, htok,
                            hjwt, hobj, hschema, hsub, hcalls, hfail, h0,
                            attachLast_append, attachLast_append_two]

/-- C2 witness: the theorem applied to the concrete fully conforming
environment, in which `postChallenge` returns the token. -/
theorem postChallenge_success_two_calls_witness :
    ∃ gresp presp preq,
      (postChallenge kpSample okToml okEnv false st0).1.result.networkCalls =
        st0.result.networkCalls ++
          [{ request := { url := jsToString (jsGet okToml "WEB_AUTH_ENDPOINT") ++
               "?account=" ++ kpSample.publicKey }
             response := some gresp },
           { request := preq, response := some presp }] ∧
      preq.method = "POST" ∧
      preq.url = jsToString (jsGet okToml "WEB_AUTH_ENDPOINT") ∧
      (postChallenge kpSample okToml okEnv false st0).1.result.failure = none :=
  postChallenge_success_two_calls kpSample okToml okEnv false st0
    (.str "ey.token") rfl rfl

/-- C3: in every run of `getChallenge` or `postChallenge` started on a
fresh state, `result.failure` is assigned at most once (first failure
wins) and no NetworkCall entry is appended after the assignment: the
chronological mutation trace is a sequence of pushes followed by at most
one trailing failure assignment. -/
theorem run_mutations_wellformed (kp : KeypairModel) (toml : JSValue)
    (env : Sep10Env) (uj : Bool) (st : ExecState)
    (h0 : st.trace = []) :
    traceOk (getChallenge kp toml env st).1.trace = true ∧
    traceOk (postChallenge kp toml env uj st).1.trace = true := by
  constructor
  · rcases getChallenge_trace_shape kp toml env st with h | h | h <;>
      simp [h, h0, traceOk]
  · rcases hg : getChallenge kp toml env st with ⟨st1, out⟩
    have hsh := getChallenge_trace_shape kp toml env st
    rw [hg] at hsh
    dsimp only at hsh
    rcases out with ret | _
    rotate_left
    · simp only [postChallenge, hg]
      rcases hsh with h | h | h <;> simp [h, h0, traceOk]
    rcases ret with _ | tx
    · simp only [postChallenge, hg]
      rcases hsh with h | h | h <;> simp [h, h0, traceOk]
    · have h2 : (getChallenge kp toml env st).2 = .ret (some tx) := by rw [hg]
      obtain ⟨gresp, hfetch, hcalls, hfail, htrace, hexp, hact⟩ :=
        getChallenge_success_state kp toml env st tx h2
      rw [hg] at htrace
      dsimp only at htrace
      simp only [postChallenge, hg]
      split
      · simp [htrace, h0, traceOk]
      · split
        · simp [htrace, h0, traceOk]
        · split
          · split
            · split <;> simp [htrace, h0, traceOk]
            · simp [htrace, h0, traceOk]
          · split
            · simp [htrace, h0, traceOk]
            · split
              · simp [htrace, h0, traceOk]
              · split
                · simp [htrace, h0, traceOk]
                · split
                  · simp [htrace, h0, traceOk]
                  · split
                    · simp [htrace, h0, traceOk]
                    · split
                      · simp [htrace, h0, traceOk]
                      · split
                        · simp [htrace, h0, traceOk]
                        · simp [htrace, h0, traceOk]

/-- C3 witness: the trace property evaluated on a run with the concrete
conforming environment, starting from the fresh state. -/
theorem run_mutations_wellformed_witness :
    traceOk (getChallenge kpSample okToml okEnv st0).1.trace = true ∧
    traceOk (postChallenge kpSample okToml okEnv false st0).1.trace = true :=
  run_mutations_wellformed kpSample okToml okEnv false st0 rfl

/-- C9: a response-body field that is present but falsy is treated the
same as an absent one: for a body on which member access does not throw
(any JSON value other than null), a GET-phase `transaction` field equal
to the empty string (exactly like an absent field) produces the
NO_TRANSACTION failure, and a POST-phase `token` field equal to the
empty string (exactly like an absent field) produces the NO_TOKEN
failure.  (On a body of JSON null the member access itself throws at
sep10.ts lines 172/261 and no failure is recorded.) -/
theorem falsy_fields_treated_as_absent :
    (∀ (kp : KeypairModel) (toml : JSValue) (env : Sep10Env) (st : ExecState)
        (resp : HttpResponse) (body : JSValue),
      truthy toml = true →
      truthy (jsGet toml "WEB_AUTH_ENDPOINT") = true →
      env.getFetch = .ok resp → resp.status = 200 →
      resp.contentType = some "application/json" →
      resp.jsonBody = some body →
      jsAccessThrows body = false →
      (jsGet body "transaction" = .str "" ∨ jsGet body "transaction" = .undefined) →
      (getChallenge kp toml env st).1.result.failure.map (fun f => f.name) =
        some "missing 'transaction' field" ∧
      (getChallenge kp toml env st).2 = .ret none) ∧
    (∀ (kp : KeypairModel) (toml : JSValue) (env : Sep10Env) (uj : Bool)
        (st st1 : ExecState) (tx : Transaction) (resp : HttpResponse)
        (body : JSValue),
      getChallenge kp toml env st = (st1, .ret (some tx)) →
      env.postFetch = .ok resp → resp.status = 200 →
      resp.contentType = some "application/json" →
      resp.jsonBody = some body →
      jsAccessThrows body = false →
      (jsGet body "token" = .str "" ∨ jsGet body "token" = .undefined) →
      (postChallenge kp toml env uj st).1.result.failure.map (fun f => f.name) =
        some "no token" ∧
      (postChallenge kp toml env uj st).2 = .ret none) := by
  constructor
  · intro kp toml env st resp body h1 h2 h3 h4 h5 h6 h8 h7
    rcases h7 with h7 | h7 <;>
      simp [getChallenge, h1, h2, h3, h4, h5, h6, h8, h7, truthy_str,
        truthy_undefined, makeFailure, NO_TRANSACTION]
  · intro kp toml env uj st st1 tx resp body hg h3 h4 h5 h6 h8 h7
    rcases h7 with h7 | h7 <;>
      simp [postChallenge, hg, h3, h4, h5, h6, h8, h7, truthy_str,
        truthy_undefined, makeFailure, NO_TOKEN]

/-- C9 witness: the theorem applied to concrete environments whose GET
body carries `transaction: ""` and whose POST body carries
`token: ""`. -/
theorem falsy_fields_treated_as_absent_witness :
    (getChallenge kpSample okToml
        (withGetFetch okEnv (.ok respEmptyTx)) st0).1.result.failure.map
        (fun f => f.name) = some "missing 'transaction' field" ∧
    (postChallenge kpSample okToml
        (withPostFetch okEnv (.ok respEmptyToken)) false st0).1.result.failure.map
        (fun f => f.name) = some "no token" :=
  ⟨(falsy_fields_treated_as_absent.1 kpSample okToml
      (withGetFetch okEnv (.ok respEmptyTx)) st0 respEmptyTx
      (.obj [("transaction", .str "")]) rfl rfl rfl rfl rfl rfl rfl
      (.inl rfl)).1,
   (falsy_fields_treated_as_absent.2 kpSample okToml
      (withPostFetch okEnv (.ok respEmptyToken)) false st0
      (getChallenge kpSample okToml
        (withPostFetch okEnv (.ok respEmptyToken)) st0).1
      { sequence := "0", rest := "" } respEmptyToken
      (.obj [("token", .str "")]) rfl rfl rfl rfl rfl rfl (.inl rfl)).1⟩

/-- C5: in both the GET and the POST phase, a response status other than
200 produces the "unexpected status code" failure with
`result.expected = 200` and `result.actual` = the observed status, and a
Content-Type header that is missing or not exactly "application/json"
produces the "bad content type" failure with
`result.expected = "application/json"` and `result.actual` set to the
observed header only when the header is present (left untouched — i.e.
omitted on a fresh result — when the header is absent). -/
theorem status_and_content_type_diagnostics :
    (∀ (kp : KeypairModel) (toml : JSValue) (env : Sep10Env) (st : ExecState)
        (resp : HttpResponse),
      truthy toml = true →
      truthy (jsGet toml "WEB_AUTH_ENDPOINT") = true →
      env.getFetch = .ok resp → resp.status ≠ 200 →
      (getChallenge kp toml env st).1.result.failure.map (fun f => f.name) =
        some "unexpected status code" ∧
      (getChallenge kp toml env st).1.result.expected = some (.num 200) ∧
      (getChallenge kp toml env st).1.result.actual =
        some (.num resp.status)) ∧
    (∀ (kp : KeypairModel) (toml : JSValue) (env : Sep10Env) (st : ExecState)
        (resp : HttpResponse),
      truthy toml = true →
      truthy (jsGet toml "WEB_AUTH_ENDPOINT") = true →
      env.getFetch = .ok resp → resp.status = 200 →
      resp.contentType ≠ some "application/json" →
      (getChallenge kp toml env st).1.result.failure.map (fun f => f.name) =
        some "bad content type" ∧
      (getChallenge kp toml env st).1.result.expected =
        some (.str "application/json") ∧
      (resp.contentType = none →
        (getChallenge kp toml env st).1.result.actual = st.result.actual) ∧
      (∀ ct, resp.contentType = some ct → ct ≠ "" →
        (getChallenge kp toml env st).1.result.actual = some (.str ct))) ∧
    (∀ (kp : KeypairModel) (toml : JSValue) (env : Sep10Env) (uj : Bool)
        (st st1 : ExecState) (tx : Transaction) (resp : HttpResponse),
      getChallenge kp toml env st = (st1, .ret (some tx)) →
      env.postFetch = .ok resp → resp.status ≠ 200 →
      (postChallenge kp toml env uj st).1.result.failure.map (fun f => f.name) =
        some "unexpected status code" ∧
      (postChallenge kp toml env uj st).1.result.expected = some (.num 200) ∧
      (postChallenge kp toml env uj st).1.result.actual =
        some (.num resp.status)) ∧
    (∀ (kp : KeypairModel) (toml : JSValue) (env : Sep10Env) (uj : Bool)
        (st st1 : ExecState) (tx : Transaction) (resp : HttpResponse),
      getChallenge kp toml env st = (st1, .ret (some tx)) →
      env.postFetch = .ok resp → resp.status = 200 →
      resp.contentType ≠ some "application/json" →
      (postChallenge kp toml env uj st).1.result.failure.map (fun f => f.name) =
        some "bad content type" ∧
      (postChallenge kp toml env uj st).1.result.expected =
        some (.str "application/json") ∧
      (resp.contentType = none →
        (postChallenge kp toml env uj st).1.result.actual = st.result.actual) ∧
      (∀ ct, resp.contentType = some ct → ct ≠ "" →
        (postChallenge kp toml env uj st).1.result.actual =
          some (.str ct))) := by
  refine ⟨?_, ?_, ?_, ?_⟩
  · intro kp toml env st resp h1 h2 hfetch hst
    simp [getChallenge, h1, h2, hfetch, hst, makeFailure,
      UNEXPECTED_STATUS_CODE]
  · intro kp toml env st resp h1 h2 hfetch hst hct
    rcases hc : resp.contentType with _ | ct
    · simp [getChallenge, h1, h2, hfetch, hst, hct, hc, makeFailure,
        BAD_CONTENT_TYPE]
    · by_cases hne : ct = ""
      · subst hne
        simp [getChallenge, h1, h2, hfetch, hst, hct, hc, makeFailure,
          BAD_CONTENT_TYPE]
      · have hctv : ct ≠ "application/json" := by
          rw [hc] at hct; simpa using hct
        simp [getChallenge, h1, h2, hfetch, hst, hctv, hc, hne, makeFailure,
          BAD_CONTENT_TYPE]
  · intro kp toml env uj st st1 tx resp hg hfetch hst
    simp [postChallenge, hg, hfetch, hst, makeFailure, UNEXPECTED_STATUS_CODE]
  · intro kp toml env uj st st1 tx resp hg hfetch hst hct
    have h2 : (getChallenge kp toml env st).2 = .ret (some tx) := by rw [hg]
    obtain ⟨gresp, hgf, hcalls, hfail, htrace, hexp, hact⟩ :=
      getChallenge_success_state kp toml env st tx h2
    rw [hg] at hact
    dsimp only at hact
    rcases hc : resp.contentType with _ | ct
    · simp [postChallenge, hg, hfetch, hst, hct, hc, hact, makeFailure,
        BAD_CONTENT_TYPE]
    · by_cases hne : ct = ""
      · subst hne
        simp [postChallenge, hg, hfetch, hst, hct, hc, hact, makeFailure,
          BAD_CONTENT_TYPE]
      · have hctv : ct ≠ "application/json" := by
          rw [hc] at hct; simpa using hct
        simp [postChallenge, hg, hfetch, hst, hctv, hc, hne, makeFailure,
          BAD_CONTENT_TYPE]

/-- C5 witness: the GET-phase clauses applied to a concrete 404 response
and to a concrete response without a Content-Type header, and the
POST-phase clauses applied to the same concrete mismatches. -/
theorem status_and_content_type_diagnostics_witness :
    ((getChallenge kpSample okToml
        (withGetFetch okEnv (.ok resp404)) st0).1.result.failure.map
        (fun f => f.name) = some "unexpected status code" ∧
      (getChallenge kpSample okToml
        (withGetFetch okEnv (.ok resp404)) st0).1.result.expected =
        some (.num 200) ∧
      (getChallenge kpSample okToml
        (withGetFetch okEnv (.ok resp404)) st0).1.result.actual =
        some (.num resp404.status)) ∧
    ((getChallenge kpSample okToml
        (withGetFetch okEnv (.ok respNoCt)) st0).1.result.failure.map
        (fun f => f.name) = some "bad content type" ∧
      (getChallenge kpSample okToml
        (withGetFetch okEnv (.ok respNoCt)) st0).1.result.expected =
        some (.str "application/json")) ∧
    ((postChallenge kpSample okToml
        (withPostFetch okEnv (.ok resp404)) false st0).1.result.failure.map
        (fun f => f.name) = some "unexpected status code" ∧
      (postChallenge kpSample okToml
        (withPostFetch okEnv (.ok resp404)) false st0).1.result.actual =
        some (.num resp404.status)) ∧
    ((postChallenge kpSample okToml
        (withPostFetch okEnv (.ok respBadCt)) false st0).1.result.failure.map
        (fun f => f.name) = some "bad content type" ∧
      (postChallenge kpSample okToml
        (withPostFetch okEnv (.ok respBadCt)) false st0).1.result.actual =
        some (.str "text/html")) :=
  ⟨status_and_content_type_diagnostics.1 kpSample okToml
      (withGetFetch okEnv (.ok resp404)) st0 resp404 rfl rfl rfl (by decide),
   ⟨(status_and_content_type_diagnostics.2.1 kpSample okToml
      (withGetFetch okEnv (.ok respNoCt)) st0 respNoCt rfl rfl rfl rfl
      (by decide)).1,
    (status_and_content_type_diagnostics.2.1 kpSample okToml
      (withGetFetch okEnv (.ok respNoCt)) st0 respNoCt rfl rfl rfl rfl
      (by decide)).2.1⟩,
   ⟨(status_and_content_type_diagnostics.2.2.1 kpSample okToml
      (withPostFetch okEnv (.ok resp404)) false st0
      (getChallenge kpSample okToml
        (withPostFetch okEnv (.ok resp404)) st0).1
      { sequence := "0", rest := "" } resp404 rfl rfl (by decide)).1,
    (status_and_content_type_diagnostics.2.2.1 kpSample okToml
      (withPostFetch okEnv (.ok resp404)) false st0
      (getChallenge kpSample okToml
        (withPostFetch okEnv (.ok resp404)) st0).1
      { sequence := "0", rest := "" } resp404 rfl rfl (by decide)).2.2⟩,
   ⟨(status_and_content_type_diagnostics.2.2.2 kpSample okToml
      (withPostFetch okEnv (.ok respBadCt)) false st0
      (getChallenge kpSample okToml
        (withPostFetch okEnv (.ok respBadCt)) st0).1
      { sequence := "0", rest := "" } respBadCt rfl rfl rfl (by decide)).1,
    (status_and_content_type_diagnostics.2.2.2 kpSample okToml
      (withPostFetch okEnv (.ok respBadCt)) false st0
      (getChallenge kpSample okToml
        (withPostFetch okEnv (.ok respBadCt)) st0).1
      { sequence := "0", rest := "" } respBadCt rfl rfl rfl (by decide)).2.2.2
      "text/html" rfl (by decide)⟩⟩

/-- C7: the final token check of `postChallenge` only asks whether the
decoded token's `sub` field parses as a syntactically valid public key
(`Keypair.fromPublicKey`): a parse failure yields the
"invalid jwt 'sub' attribute" failure, while a well-formed key is
accepted with no comparison against the initiating keypair — `kp` is
universally quantified and unrelated to `sub` — and on success
`postChallenge` returns the response body's raw `token` value
unchanged. -/
theorem token_sub_validation (kp : KeypairModel) (toml : JSValue)
    (env : Sep10Env) (uj : Bool) (st st1 : ExecState) (tx : Transaction)
    (resp : HttpResponse) (body jwt : JSValue)
    (hg : getChallenge kp toml env st = (st1, .ret (some tx)))
    (hfetch : env.postFetch = .ok resp)
    (hst : resp.status = 200)
    (hct : resp.contentType = some "application/json")
    (hbody : resp.jsonBody = some body)
    (htok : truthy (jsGet body "token") = true)
    (hjwt : env.jwtDecode (jsGet body "token") = .ok jwt)
    (htr : truthy jwt = true)
    (hobj : jsTypeofObject jwt = true)
    (hschema : env.validateErrors jwt = []) :
    (env.validPublicKey (jsGet jwt "sub") = false →
      (postChallenge kp toml env uj st).1.result.failure.map (fun f => f.name) =
        some "invalid jwt 'sub' attribute" ∧
      (postChallenge kp toml env uj st).2 = .ret none) ∧
    (env.validPublicKey (jsGet jwt "sub") = true →
      (postChallenge kp toml env uj st).2 = .ret (some (jsGet body "token")) ∧
      (postChallenge kp toml env uj st).1.result.failure =
        st1.result.failure) := by
  have hnt := jsAccessThrows_of_truthy_get body "token" htok
  constructor <;> intro hsub <;>
    simp [postChallenge, hg, hfetch, hst, hct, hbody, hnt, htok, hjwt, htr,
      hobj, hschema, hsub, makeFailure, INVALID_JWT_SUB]

/-- C7 witness: with the conforming environment the token's `sub` is the
well-formed key "GSERVERSUB", which differs from the client's public key
"GCLIENT", and the raw token string is returned; with the environment
whose key parse always fails, the "invalid jwt 'sub' attribute" failure
is produced. -/
theorem token_sub_validation_witness :
    jsGet okJwt "sub" = .str "GSERVERSUB" ∧
    kpSample.publicKey = "GCLIENT" ∧
    (postChallenge kpSample okToml okEnv false st0).2 =
      .ret (some (.str "ey.token")) ∧
    (postChallenge kpSample okToml envSubBad false st0).1.result.failure.map
      (fun f => f.name) = some "invalid jwt 'sub' attribute" :=
  ⟨rfl, rfl,
   ((token_sub_validation kpSample okToml okEnv false st0
      (getChallenge kpSample okToml okEnv st0).1 { sequence := "0", rest := "" }
      okPostResp (.obj [("token", .str "ey.token")]) okJwt
      rfl rfl rfl rfl rfl rfl rfl rfl rfl rfl).2 rfl).1,
   ((token_sub_validation kpSample okToml envSubBad false st0
      (getChallenge kpSample okToml envSubBad st0).1 { sequence := "0", rest := "" }
      okPostResp (.obj [("token", .str "ey.token")]) okJwt
      rfl rfl rfl rfl rfl rfl rfl rfl rfl rfl).1 rfl).1⟩

/-- C1 counterexample: the claim says no exception ever crosses the
`getChallenge` boundary, every violated check instead producing a
failure and an early return; but on a 200 / application/json response
whose body is not valid JSON, the uncaught `await response.json()`
(sep10.ts line 171) rejects, and on a body that is the JSON text "null"
the member access `responseBody.transaction` (line 172) throws an
uncaught TypeError: in both cases the run terminates by a thrown
exception and no failure is recorded. -/
theorem getChallenge_throws_on_nonjson_body :
    (getChallenge kpSample okToml
      (withGetFetch okEnv (.ok respNoJsonBody)) st0).2 = .thrown ∧
    (getChallenge kpSample okToml
      (withGetFetch okEnv (.ok respNoJsonBody)) st0).1.result.failure =
      none ∧
    (getChallenge kpSample okToml
      (withGetFetch okEnv (.ok respNullBody)) st0).2 = .thrown ∧
    (getChallenge kpSample okToml
      (withGetFetch okEnv (.ok respNullBody)) st0).1.result.failure =
      none := ⟨rfl, rfl, rfl, rfl⟩

/-- C1 (amended): provided the GET response body (when one is reached)
parses as JSON to a value on which member access does not throw (any
JSON value other than null), the validated conditions are checked in
exactly the specified order — the failure recorded by `getChallenge` is
the one named by the first violated condition of the spec's list, each
with an early `.ret none` return, no exception crosses the function
boundary, and no condition being violated is exactly the case in which
a challenge is returned; when the 200 / application/json response body
fails to parse as JSON (the uncaught `json()` rejection) or parses to
JSON null (the uncaught TypeError of `responseBody.transaction`,
line 172), an exception escapes with no failure recorded (see the
counterexample). -/
theorem getChallenge_checks_in_spec_order (kp : KeypairModel)
    (toml : JSValue) (env : Sep10Env) (st : ExecState)
    (h0 : st.result.failure = none)
    (hjson : ∀ resp, env.getFetch = .ok resp → resp.jsonBody ≠ none)
    (hnull : ∀ resp body, env.getFetch = .ok resp →
      resp.jsonBody = some body → jsAccessThrows body = false) :
    (getChallenge kp toml env st).2 ≠ .thrown ∧
    (getChallenge kp toml env st).1.result.failure.map (fun f => f.name) =
      specFirstFailureName toml env ∧
    (specFirstFailureName toml env = none ↔
      ∃ tx, (getChallenge kp toml env st).2 = .ret (some tx)) := by
  cases ht : truthy toml with
  | false =>
    simp [getChallenge, specFirstFailureName, ht, h0, makeFailure, NO_TOML]
  | true =>
    cases he : truthy (jsGet toml "WEB_AUTH_ENDPOINT") with
    | false =>
      simp [getChallenge, specFirstFailureName, ht, he, h0, makeFailure,
        NO_WEB_AUTH_ENDPOINT]
    | true =>
      rcases hf : env.getFetch with u | resp
      · simp [getChallenge, specFirstFailureName, ht, he, hf, h0,
          makeFailure, CONNECTION_ERROR]
      by_cases hs : resp.status = 200
      rotate_left
      · simp [getChallenge, specFirstFailureName, ht, he, hf, hs, h0,
          makeFailure, UNEXPECTED_STATUS_CODE]
      by_cases hc : resp.contentType = some "application/json"
      rotate_left
      · rcases hcv : resp.contentType with _ | ct
        · simp [getChallenge, specFirstFailureName, ht, he, hf, hs, hc, hcv,
            h0, makeFailure, BAD_CONTENT_TYPE]
        · by_cases hne : ct = ""
          · subst hne
            simp [getChallenge, specFirstFailureName, ht, he, hf, hs, hc,
              hcv, h0, makeFailure, BAD_CONTENT_TYPE]
          · have hctv : ct ≠ "application/json" := by
              rw [hcv] at hc; simpa using hc
            simp [getChallenge, specFirstFailureName, ht, he, hf, hs, hcv,
              hctv, hne, h0, makeFailure, BAD_CONTENT_TYPE]
      rcases hb : resp.jsonBody with _ | body
      · exact absurd hb (hjson resp hf)
      have hnb : jsAccessThrows body = false := hnull resp body hf hb
      cases htx : truthy (jsGet body "transaction") with
      | false =>
        simp [getChallenge, specFirstFailureName, ht, he, hf, hs, hc, hb,
          hnb, htx, h0, makeFailure, NO_TRANSACTION]
      | true =>
        rcases hdec : env.fromXDR (jsGet body "transaction")
            (jsGet toml "NETWORK_PASSPHRASE") with u | d
        · simp [getChallenge, specFirstFailureName, ht, he, hf, hs, hc, hb,
            hnb, htx, hdec, h0, makeFailure, DESERIALIZATION_FAILED]
        rcases d with tx | _
        rotate_left
        · simp [getChallenge, specFirstFailureName, ht, he, hf, hs, hc, hb,
            hnb, htx, hdec, h0, makeFailure, INVALID_TRANSACTION_TYPE]
        by_cases hseq : tx.sequence = "0"
        rotate_left
        · simp [getChallenge, specFirstFailureName, ht, he, hf, hs, hc, hb,
            hnb, htx, hdec, hseq, h0, makeFailure, NONZERO_SEQUENCE_NUMBER]
        · simp [getChallenge, specFirstFailureName, ht, he, hf, hs, hc, hb,
            hnb, htx, hdec, hseq, h0]

/-- C1 (amended) witness: the order theorem applied to the concrete
conforming environment, whose response body parses as JSON. -/
theorem getChallenge_checks_in_spec_order_witness :
    (getChallenge kpSample okToml okEnv st0).2 ≠ .thrown ∧
    (getChallenge kpSample okToml okEnv st0).1.result.failure.map
      (fun f => f.name) = specFirstFailureName okToml okEnv ∧
    (specFirstFailureName okToml okEnv = none ↔
      ∃ tx, (getChallenge kpSample okToml okEnv st0).2 = .ret (some tx)) :=
  getChallenge_checks_in_spec_order kpSample okToml okEnv st0 rfl
    (fun resp h => by
      injection h with h
      subst h
      simp [okResp])
    (fun resp body h hb => by
      injection h with h
      subst h
      injection hb with hb
      subst hb
      rfl)

end Sep10
